import Mathlib

/-!
Shallow embedding of the crypto alert bot (main.py, logic.py, utils.py,
server.py, alerts.py) in Lean 4, together with theorems checking the
natural-language specification's claims against the code.

Machine floats of the source are modelled by exact rationals; Python's
`int(x)` on the non-negative quantities appearing in the scoring code is
modelled by natural-number division, and Python's banker's `round` by
`pyRound` below.  Indicator values that the source obtains from the
third-party `ta` library (RSI, MACD, stochastic, Bollinger, EMA) and from
network helpers (`check_trend`, `volume_spike`, `is_suppressed`,
`rsi_divergence`) are inputs of the embedded functions; everything the
source computes itself from the candle data or from those values is
recomputed here from the same formulas.
-/

/-- Floor of a rational, in a form the kernel evaluates. -/
def ratFloor (q : ℚ) : ℤ := q.num / (q.den : ℤ)

theorem ratFloor_eq (q : ℚ) : ratFloor q = ⌊q⌋ := Rat.floor_def.symm

/-- Python's `round` on a rational: round half to even (banker's rounding). -/
def pyRound (q : ℚ) : ℤ :=
  if q - ratFloor q = 1/2 then
    (if ratFloor q % 2 = 0 then ratFloor q else ratFloor q + 1)
  else ratFloor (q + 1/2)

theorem pyRound_eq (q : ℚ) :
    pyRound q = if Int.fract q = 1/2 then
      (if 2 ∣ ⌊q⌋ then ⌊q⌋ else ⌊q⌋ + 1) else round q := by
  unfold pyRound
  rw [round_eq, Int.fract]
  simp only [ratFloor_eq, Int.dvd_iff_emod_eq_zero]

/-- Python's `round(x, 2)`. -/
def pyRound2 (q : ℚ) : ℚ := (pyRound (q * 100) : ℚ) / 100

/-- Python's `round(x, 4)`. -/
def pyRound4 (q : ℚ) : ℚ := (pyRound (q * 10000) : ℚ) / 10000

theorem pyRound_nonneg (q : ℚ) (h : 0 ≤ q) : 0 ≤ pyRound q := by
  rw [pyRound_eq]
  split
  · split
    · exact Int.floor_nonneg.mpr h
    · have := Int.floor_nonneg.mpr h; omega
  · rw [round_eq]
    exact Int.floor_nonneg.mpr (by linarith)

theorem pyRound_le (q : ℚ) (n : ℤ) (h : q ≤ n) : pyRound q ≤ n := by
  rw [pyRound_eq]
  split
  · rename_i hf
    have hq : q ≠ (n : ℚ) := by
      intro he
      rw [he, Int.fract_intCast] at hf
      norm_num at hf
    have hlt : q < (n : ℚ) := lt_of_le_of_ne h hq
    have hfl : ⌊q⌋ < n := Int.floor_lt.mpr hlt
    split <;> omega
  · rw [round_eq]
    have : q + 1/2 < ((n + 1 : ℤ) : ℚ) := by push_cast; linarith
    have := Int.floor_lt.mpr this
    omega

theorem pyRound2_nonneg (q : ℚ) (h : 0 ≤ q) : 0 ≤ pyRound2 q := by
  unfold pyRound2
  have : (0 : ℤ) ≤ pyRound (q * 100) := pyRound_nonneg _ (by positivity)
  positivity

theorem pyRound2_le_100 (q : ℚ) (h : q ≤ 100) : pyRound2 q ≤ 100 := by
  unfold pyRound2
  have h1 : pyRound (q * 100) ≤ (10000 : ℤ) := pyRound_le _ _ (by push_cast; linarith)
  rw [div_le_iff₀ (by norm_num)]
  calc ((pyRound (q * 100) : ℚ)) ≤ ((10000 : ℤ) : ℚ) := by exact_mod_cast h1
    _ = 100 * 100 := by norm_num

/-- One OHLCV candle row of the fetched kline DataFrame. -/
structure Candle where
  open_ : ℚ
  high : ℚ
  low : ℚ
  close : ℚ
  volume : ℚ
deriving DecidableEq, Repr

instance : Inhabited Candle := ⟨⟨0, 0, 0, 0, 0⟩⟩

/-- A fetched kline DataFrame, as the list of its rows; `len(df)` is
`df.length` and `df.empty` is `df.length = 0`. -/
abbrev DataFrame := List Candle

/-- `df['close']` as a list. -/
def closes (df : DataFrame) : List ℚ := df.map Candle.close

/-- `df['high']` as a list. -/
def highsOf (df : DataFrame) : List ℚ := df.map Candle.high

/-- `df['low']` as a list. -/
def lowsOf (df : DataFrame) : List ℚ := df.map Candle.low

/-- `df['volume']` as a list. -/
def volumesOf (df : DataFrame) : List ℚ := df.map Candle.volume

/-- The last row, `df.iloc[-1]` (arbitrary on an empty frame; all uses are
guarded by a length check in the source). -/
def lastCandle (df : DataFrame) : Candle := (List.getLast? df).getD default

/-- `df['close'].iloc[-1]`. -/
def lastClose (df : DataFrame) : ℚ := (lastCandle df).close

/-- `series.iloc[-n:]`: the last `n` entries. -/
def lastN (n : ℕ) (l : List ℚ) : List ℚ := l.drop (l.length - n)

/-- `series.max()` (0 on an empty series; all uses are guarded). -/
def listMax : List ℚ → ℚ
  | [] => 0
  | x :: xs => xs.foldl max x

/-- `series.min()` (0 on an empty series; all uses are guarded). -/
def listMin : List ℚ → ℚ
  | [] => 0
  | x :: xs => xs.foldl min x

/-- `series.mean()` over a list (0 on an empty series by `q / 0 = 0`). -/
def listMean (l : List ℚ) : ℚ := l.sum / (l.length : ℚ)

/-- Last element of a series, `series.iloc[-1]`, with default 0. -/
def lastElem (l : List ℚ) : ℚ := (l.getLast?).getD 0

/-- `confidence_weights` of one entry of `TIMEFRAME_CONFIG` (main.py). -/
structure ConfidenceWeights where
  htf_trend : ℕ
  trend : ℕ
  volume : ℕ
  macd_hist : ℕ
  stoch_crossover : ℕ
  ema50 : ℕ
  divergence : ℕ
deriving DecidableEq, Repr

/-- `tp_weights` of one entry of `TIMEFRAME_CONFIG` (main.py). -/
structure TPWeights where
  rsi_overbought : ℕ
  stoch_overbought : ℕ
  bb_hit : ℕ
  macd_cross : ℕ
  vol_weak : ℕ
  rsi_div : ℕ
  stoch_cross : ℕ
  rejection_wick : ℕ
  htf_bear : ℕ
deriving DecidableEq, Repr

/-- `momentum_weights` of one entry of `TIMEFRAME_CONFIG` (main.py). -/
structure MomentumWeights where
  rsi_overbought : ℕ
  stoch_overbought : ℕ
  macd_bearish : ℕ
  rejection_wick : ℕ
  volume_weak : ℕ
deriving DecidableEq, Repr

/-- One entry of `TIMEFRAME_CONFIG` (main.py lines 30-162).  The `15m`
entry has no `momentum_weights` / `momentum_threshold` keys, hence the
`Option`s. -/
structure TFConfig where
  htf : String
  volume_window : ℕ
  cooldown : ℕ
  confidence_weights : ConfidenceWeights
  tp_weights : TPWeights
  momentum_weights : Option MomentumWeights
  momentum_threshold : Option ℕ
  entry_threshold : ℕ
  tp_threshold : ℕ
  tsl : ℚ
deriving DecidableEq, Repr

/-- The four timeframes keyed in `TIMEFRAME_CONFIG` (the `interval`
strings "15m", "30m", "4h", "1d" of the source). -/
inductive Timeframe where
  | m15 | m30 | h4 | d1
deriving DecidableEq, Repr

/-- `TIMEFRAME_CONFIG` (main.py lines 30-162). -/
def TIMEFRAME_CONFIG : Timeframe → TFConfig
  | .m15 =>
    { htf := "1h", volume_window := 8, cooldown := 15
      confidence_weights :=
        { htf_trend := 10, trend := 8, volume := 14, macd_hist := 14
          stoch_crossover := 10, ema50 := 6, divergence := 8 }
      tp_weights :=
        { rsi_overbought := 18, stoch_overbought := 16, bb_hit := 15
          macd_cross := 12, vol_weak := 14, rsi_div := 10, stoch_cross := 9
          rejection_wick := 10, htf_bear := 6 }
      momentum_weights := none, momentum_threshold := none
      entry_threshold := 54, tp_threshold := 55, tsl := 6/100 }
  | .m30 =>
    { htf := "4h", volume_window := 12, cooldown := 30
      confidence_weights :=
        { htf_trend := 16, trend := 10, volume := 15, macd_hist := 16
          stoch_crossover := 11, ema50 := 9, divergence := 13 }
      tp_weights :=
        { rsi_overbought := 20, stoch_overbought := 15, bb_hit := 18
          macd_cross := 13, vol_weak := 12, rsi_div := 13, stoch_cross := 10
          rejection_wick := 11, htf_bear := 7 }
      momentum_weights := some
        { rsi_overbought := 20, stoch_overbought := 20, macd_bearish := 25
          rejection_wick := 20, volume_weak := 15 }
      momentum_threshold := some 60
      entry_threshold := 58, tp_threshold := 61, tsl := 8/100 }
  | .h4 =>
    { htf := "1d", volume_window := 20, cooldown := 60
      confidence_weights :=
        { htf_trend := 28, trend := 16, volume := 12, macd_hist := 14
          stoch_crossover := 9, ema50 := 11, divergence := 20 }
      tp_weights :=
        { rsi_overbought := 25, stoch_overbought := 20, bb_hit := 15
          macd_cross := 14, vol_weak := 11, rsi_div := 15, stoch_cross := 10
          rejection_wick := 10, htf_bear := 10 }
      momentum_weights := some
        { rsi_overbought := 25, stoch_overbought := 20, macd_bearish := 25
          rejection_wick := 15, volume_weak := 15 }
      momentum_threshold := some 65
      entry_threshold := 64, tp_threshold := 68, tsl := 18/100 }
  | .d1 =>
    { htf := "1w", volume_window := 30, cooldown := 180
      confidence_weights :=
        { htf_trend := 30, trend := 20, volume := 10, macd_hist := 15
          stoch_crossover := 5, ema50 := 15, divergence := 20 }
      tp_weights :=
        { rsi_overbought := 30, stoch_overbought := 15, bb_hit := 20
          macd_cross := 10, vol_weak := 5, rsi_div := 20, stoch_cross := 10
          rejection_wick := 10, htf_bear := 10 }
      momentum_weights := some
        { rsi_overbought := 30, stoch_overbought := 15, macd_bearish := 25
          rejection_wick := 15, volume_weak := 15 }
      momentum_threshold := some 70
      entry_threshold := 65, tp_threshold := 70, tsl := 30/100 }

/-- `get_max_confidence_score` (main.py lines 244-246): the sum of the
configured `confidence_weights` values of the timeframe. -/
def get_max_confidence_score (interval : Timeframe) : ℕ :=
  let w := (TIMEFRAME_CONFIG interval).confidence_weights
  w.htf_trend + w.trend + w.volume + w.macd_hist + w.stoch_crossover +
    w.ema50 + w.divergence

/-- The sum of the configured `tp_weights` values (main.py line 607). -/
def tp_max_score (interval : Timeframe) : ℕ :=
  let w := (TIMEFRAME_CONFIG interval).tp_weights
  w.rsi_overbought + w.stoch_overbought + w.bb_hit + w.macd_cross +
    w.vol_weak + w.rsi_div + w.stoch_cross + w.rejection_wick + w.htf_bear

/-- The indicator snapshot that `analyze` (main.py lines 474-560) obtains
from the `ta` library and from the network helpers `check_trend`,
`volume_spike`, `is_suppressed`, `rsi_divergence`.  `rsi`, `macd_line`,
`macd_signal` and `macd_hist` are `none` when the RSI/MACD `try` block of
lines 475-503 fails (the source then sets them to Python `None`). -/
structure Indicators where
  rsi : Option ℚ
  macd_line : Option ℚ
  macd_signal : Option ℚ
  macd_hist : Option ℚ
  macd_hist_positive : Bool
  stoch_k : ℚ
  stoch_d : ℚ
  stoch_crossover : Bool
  stoch_bear_crossover : Bool
  bb_upper : ℚ
  bb_lower : ℚ
  ema_50 : ℚ
  trend : Bool
  htf_trend : Bool
  suppressed : Bool
  volume_spike : Bool
  divergence : Bool
  bearish_rsi_div : Bool
deriving DecidableEq, Repr

/-- `tight_range` (main.py lines 534-536): the spread of the last 10
closes relative to the last close is below 0.02. -/
def tight_range (df : DataFrame) : Bool :=
  decide ((listMax (lastN 10 (closes df)) - listMin (lastN 10 (closes df))) /
    lastClose df < 2/100)

/-- `rsi_neutral` (main.py line 537): `40 < rsi < 60 if rsi is not None
else False`. -/
def rsi_neutral (ind : Indicators) : Bool :=
  match ind.rsi with
  | some v => decide (40 < v ∧ v < 60)
  | none => false

/-- `rejection_wick` (main.py lines 557-560). -/
def rejection_wick (df : DataFrame) : Bool :=
  decide ((lastCandle df).high - (lastCandle df).close >
    2 * |(lastCandle df).close - (lastCandle df).open_|)

/-- The number of true `core_signals` (main.py lines 564-571). -/
def core_true (ind : Indicators) : ℕ :=
  (if ind.htf_trend then 1 else 0) + (if ind.trend then 1 else 0) +
  (if ind.volume_spike then 1 else 0) + (if ind.macd_hist_positive then 1 else 0) +
  (if ind.stoch_crossover then 1 else 0)

/-- One major-factor contribution of the entry scoring (main.py lines
580-585): the full weight when the condition holds, else
`int(weight * 0.1)`, which is `weight / 10` in natural division for every
weight occurring in `TIMEFRAME_CONFIG`. -/
def major_credit (w : ℕ) (cond : Bool) : ℤ :=
  if cond then (w : ℤ) else ((w / 10 : ℕ) : ℤ)

/-- The raw entry confidence accumulated by main.py lines 573-596 in the
`core_true ≥ 2` branch: major factors plus the divergence bonus, the
suppression bonus/penalty and the tight-range and neutral-RSI penalties
(`int(x)` on the non-negative products is natural division). -/
def entry_raw (interval : Timeframe) (df : DataFrame) (ind : Indicators) : ℤ :=
  let w := (TIMEFRAME_CONFIG interval).confidence_weights
  let maxN := get_max_confidence_score interval
  major_credit w.htf_trend ind.htf_trend +
  major_credit w.trend ind.trend +
  major_credit w.volume ind.volume_spike +
  major_credit w.macd_hist ind.macd_hist_positive +
  major_credit w.stoch_crossover ind.stoch_crossover +
  major_credit w.ema50 (decide (lastClose df > ind.ema_50)) +
  (if ind.divergence then (max 5 ((maxN * 8 / 100 : ℕ) : ℤ)) else 0) +
  (if ind.suppressed then -((maxN * 7 / 100 : ℕ) : ℤ) else ((maxN * 7 / 100 : ℕ) : ℤ)) -
  (if tight_range df then ((maxN * 6 / 100 : ℕ) : ℤ) else 0) -
  (if rsi_neutral ind then ((maxN * 5 / 100 : ℕ) : ℤ) else 0)

/-- The entry confidence before clamping (main.py lines 573-596): 0 unless
at least 2 of the 5 core signals are true. -/
def entry_confidence_raw (interval : Timeframe) (df : DataFrame)
    (ind : Indicators) : ℤ :=
  if core_true ind < 2 then 0 else entry_raw interval df ind

/-- `confidence = max(0, min(confidence, get_max_confidence_score(interval)))`
(main.py line 598). -/
def entry_clamped (interval : Timeframe) (df : DataFrame)
    (ind : Indicators) : ℤ :=
  max 0 (min (entry_confidence_raw interval df ind)
    (get_max_confidence_score interval))

/-- `normalized_conf = round((confidence / max_score) * 100, 2)`
(main.py line 602). -/
def normalized_conf (interval : Timeframe) (df : DataFrame)
    (ind : Indicators) : ℚ :=
  pyRound2 ((entry_clamped interval df ind : ℚ) /
    (get_max_confidence_score interval : ℚ) * 100)

/-- Python truthiness of the `rsi` value (`if rsi:`, main.py line 611):
true when present and nonzero. -/
def rsiTruthy (rsi : Option ℚ) : Bool :=
  match rsi with
  | some v => decide (v ≠ 0)
  | none => false

/-- The number of full TP signals counted by `tp_signals` (main.py lines
608-664). -/
def tp_signals_count (df : DataFrame) (ind : Indicators)
    (macd_line macd_signal : ℚ) : ℕ :=
  (if rsiTruthy ind.rsi ∧ ind.rsi.getD 0 > 70 then 1 else 0) +
  (if ind.stoch_k > 80 ∧ ind.stoch_d > 80 then 1 else 0) +
  (if lastClose df ≥ ind.bb_upper then 1 else 0) +
  (if macd_line < macd_signal then 1 else 0) +
  (if !ind.volume_spike then 1 else 0) +
  (if ind.bearish_rsi_div then 1 else 0) +
  (if ind.stoch_bear_crossover then 1 else 0) +
  (if rejection_wick df then 1 else 0)

/-- The raw TP confidence accumulated by main.py lines 604-678: full or
half weights per condition, the bearish-HTF bonus or bullish-HTF penalty,
the confluence bonus and the BB-RSI synergy bonus. -/
def tp_raw (interval : Timeframe) (df : DataFrame) (ind : Indicators)
    (macd_line macd_signal : ℚ) : ℚ :=
  let w := (TIMEFRAME_CONFIG interval).tp_weights
  let price := lastClose df
  let maxT := tp_max_score interval
  (match ind.rsi with
   | some v =>
     if v ≠ 0 then
       (if v > 70 then (w.rsi_overbought : ℚ)
        else if v > 67 then (w.rsi_overbought : ℚ) * (1/2) else 0)
     else 0
   | none => 0) +
  (if ind.stoch_k > 80 ∧ ind.stoch_d > 80 then (w.stoch_overbought : ℚ)
   else if ind.stoch_k > 77 ∧ ind.stoch_d > 77 then (w.stoch_overbought : ℚ) * (1/2)
   else 0) +
  (if price ≥ ind.bb_upper then (w.bb_hit : ℚ)
   else if price ≥ ind.bb_upper * (995/1000) then (w.bb_hit : ℚ) * (1/2)
   else 0) +
  (if macd_line < macd_signal then (w.macd_cross : ℚ)
   else if macd_line < macd_signal * (103/100) then (w.macd_cross : ℚ) * (1/2)
   else 0) +
  (if !ind.volume_spike then (w.vol_weak : ℚ)
   else
     (let recent_vol := lastN (TIMEFRAME_CONFIG interval).volume_window (volumesOf df)
      if lastElem recent_vol < listMean recent_vol then (w.vol_weak : ℚ) * (1/2)
      else 0)) +
  (if ind.bearish_rsi_div then (w.rsi_div : ℚ) else 0) +
  (if ind.stoch_bear_crossover then (w.stoch_cross : ℚ)
   else if ind.stoch_k > 70 ∧ ind.stoch_k < ind.stoch_d then (w.stoch_cross : ℚ) * (1/2)
   else 0) +
  (if rejection_wick df then (w.rejection_wick : ℚ) else 0) +
  (if !ind.htf_trend then (w.htf_bear : ℚ) else -((w.htf_bear : ℚ) * (6/10))) +
  (if tp_signals_count df ind macd_line macd_signal ≥ 3 then
     ((min 6 (pyRound ((maxT : ℚ) * (4/100))) : ℤ) : ℚ) else 0) +
  (if price ≥ ind.bb_upper ∧ rsiTruthy ind.rsi ∧ ind.rsi.getD 0 > 70 then
     ((min 5 (pyRound ((ind.rsi.getD 0 - 70) * (1/2))) : ℤ) : ℚ) else 0)

/-- `tp_confidence = max(0, min(tp_confidence, tp_max_score))` followed by
`tp_conf = round((tp_confidence / tp_max_score) * 100, 2)` (main.py lines
680-681). -/
def tp_conf_value (interval : Timeframe) (df : DataFrame) (ind : Indicators)
    (macd_line macd_signal : ℚ) : ℚ :=
  pyRound2 (max 0 (min (tp_raw interval df ind macd_line macd_signal)
    (tp_max_score interval : ℚ)) / (tp_max_score interval : ℚ) * 100)

/-- The momentum warning score percentage (main.py lines 687-705); 0 when
the timeframe configures no momentum weights (the dict is then empty and
`momentum_max_score = 0`). -/
def momentum_score_pct (interval : Timeframe) (df : DataFrame)
    (ind : Indicators) (macd_line macd_signal : ℚ) : ℚ :=
  match (TIMEFRAME_CONFIG interval).momentum_weights with
  | none => 0
  | some mw =>
    let score : ℕ :=
      (if rsiTruthy ind.rsi ∧ ind.rsi.getD 0 > 70 then mw.rsi_overbought else 0) +
      (if ind.stoch_k > 80 ∧ ind.stoch_d > 80 then mw.stoch_overbought else 0) +
      (if macd_line < macd_signal then mw.macd_bearish else 0) +
      (if rejection_wick df then mw.rejection_wick else 0) +
      (if !ind.volume_spike then mw.volume_weak else 0)
    let maxM : ℕ := mw.rsi_overbought + mw.stoch_overbought + mw.macd_bearish +
      mw.rejection_wick + mw.volume_weak
    if maxM > 0 then pyRound2 ((score : ℚ) / (maxM : ℚ) * 100) else 0

/-- The dict returned by `analyze` (main.py lines 718-754), restricted to
the fields the claims and downstream code read. -/
structure AnalysisResult where
  confidence : ℚ
  rsi : Option ℚ
  stoch_k : ℚ
  stoch_d : ℚ
  stoch_crossover : Bool
  price : ℚ
  ema_50 : ℚ
  bb_upper : ℚ
  bb_lower : ℚ
  trend : Bool
  htf_trend : Bool
  suppressed : Bool
  volume_spike : Bool
  volume_weakening : Bool
  divergence : Bool
  initial_sl : ℚ
  highest : ℚ
  tsl_level : ℚ
  macd_line : ℚ
  macd_signal : ℚ
  macd_hist : Option ℚ
  macd_bullish : Bool
  macd_hist_positive : Bool
  entry : Bool
  tp : Bool
  tp_conf : ℚ
  bearish_rsi_div : Bool
  stoch_bear_crossover : Bool
  rejection_wick : Bool
  momentum_score : ℚ
  momentum_warning : Bool
  rsi_neutral : Bool
  tight_range : Bool
deriving DecidableEq, Repr

/-- The body of `analyze` (main.py lines 563-754) after the data and MACD
guards: assembles the returned dict from the candle data, the indicator
snapshot and the non-`None` MACD line/signal values. -/
def analyzeCore (interval : Timeframe) (tsl_percent : ℚ) (df : DataFrame)
    (ind : Indicators) (macd_line macd_signal : ℚ) : AnalysisResult :=
  let config := TIMEFRAME_CONFIG interval
  let price := lastClose df
  let nconf := normalized_conf interval df ind
  let tpc := tp_conf_value interval df ind macd_line macd_signal
  let mpct := momentum_score_pct interval df ind macd_line macd_signal
  { confidence := nconf
    rsi := ind.rsi.map pyRound2
    stoch_k := pyRound2 ind.stoch_k
    stoch_d := pyRound2 ind.stoch_d
    stoch_crossover := ind.stoch_crossover
    price := pyRound4 price
    ema_50 := pyRound4 ind.ema_50
    bb_upper := pyRound4 ind.bb_upper
    bb_lower := pyRound4 ind.bb_lower
    trend := ind.trend
    htf_trend := ind.htf_trend
    suppressed := ind.suppressed
    volume_spike := ind.volume_spike
    volume_weakening := !ind.volume_spike
    divergence := ind.divergence
    initial_sl := pyRound4 (listMin (lastN 5 (lowsOf df)))
    highest := pyRound4 (listMax (highsOf df))
    tsl_level := pyRound4 (listMax (highsOf df) * (1 - tsl_percent))
    macd_line := pyRound4 macd_line
    macd_signal := pyRound4 macd_signal
    macd_hist := ind.macd_hist.map pyRound4
    macd_bullish := decide (macd_line > macd_signal)
    macd_hist_positive := ind.macd_hist_positive
    entry := decide (nconf ≥ (config.entry_threshold : ℚ))
    tp := decide (tpc ≥ (config.tp_threshold : ℚ))
    tp_conf := tpc
    bearish_rsi_div := ind.bearish_rsi_div
    stoch_bear_crossover := ind.stoch_bear_crossover
    rejection_wick := rejection_wick df
    momentum_score := mpct
    momentum_warning := decide (mpct ≥ ((config.momentum_threshold.getD 50 : ℕ) : ℚ))
    rsi_neutral := rsi_neutral ind
    tight_range := tight_range df }

/-- `analyze` (main.py lines 463-758).  Returns `none` when the fetched
frame is empty or shorter than 220 rows (line 471), and also when the
RSI/MACD block failed and left `macd_line`/`macd_signal` as `None`: the
momentum comparison `macd_line < macd_signal` (line 693) then raises a
`TypeError` which the outer `except` of line 756 turns into `return None`.
`tsl_percent` is the optional third parameter of the source, `none`
meaning the configured default of the timeframe. -/
def analyze (interval : Timeframe) (tsl_percent : Option ℚ) (df : DataFrame)
    (ind : Indicators) : Option AnalysisResult :=
  let tsl := tsl_percent.getD (TIMEFRAME_CONFIG interval).tsl
  if df.length < 220 then none
  else
    match ind.macd_line, ind.macd_signal with
    | some l, some s => some (analyzeCore interval tsl df ind l s)
    | _, _ => none

/-- The confidence formula exactly as claim C1 words it, for comparison
with the source: the sum of the configured indicator weights of exactly
those indicator conditions that are met, with no credit for unmet
conditions and no other bonus or penalty, normalized by the sum of all
configured confidence weights of the timeframe. -/
def claimC1Confidence (interval : Timeframe) (df : DataFrame)
    (ind : Indicators) : ℚ :=
  let w := (TIMEFRAME_CONFIG interval).confidence_weights
  let metSum : ℕ :=
    (if ind.htf_trend then w.htf_trend else 0) +
    (if ind.trend then w.trend else 0) +
    (if ind.volume_spike then w.volume else 0) +
    (if ind.macd_hist_positive then w.macd_hist else 0) +
    (if ind.stoch_crossover then w.stoch_crossover else 0) +
    (if lastClose df > ind.ema_50 then w.ema50 else 0) +
    (if ind.divergence then w.divergence else 0)
  (metSum : ℚ) / (get_max_confidence_score interval : ℚ) * 100

/-- The entry confidence as the amended claim C1 describes it: when at
least 2 of the 5 core signals hold, each major condition contributes its
full weight when met and one tenth of its weight (integer part) when not;
a met divergence adds `max 5 (8% of the maximum score)`; absence of
suppression adds 7% of the maximum score and presence subtracts it; a
tight range subtracts 6% and a neutral RSI 5% of the maximum score (all
integer parts); the total is clamped to `[0, maximum score]` and
normalized to a percentage rounded to 2 digits.  With fewer than 2 core
signals the confidence is 0. -/
def amendedC1Confidence (interval : Timeframe) (df : DataFrame)
    (ind : Indicators) : ℚ :=
  let w := (TIMEFRAME_CONFIG interval).confidence_weights
  let maxN := get_max_confidence_score interval
  let tenth : ℕ → ℤ := fun weight => ((weight / 10 : ℕ) : ℤ)
  let pct : ℕ → ℤ := fun p => ((maxN * p / 100 : ℕ) : ℤ)
  let metSum : ℤ :=
    (if ind.htf_trend then (w.htf_trend : ℤ) else 0) +
    (if ind.trend then (w.trend : ℤ) else 0) +
    (if ind.volume_spike then (w.volume : ℤ) else 0) +
    (if ind.macd_hist_positive then (w.macd_hist : ℤ) else 0) +
    (if ind.stoch_crossover then (w.stoch_crossover : ℤ) else 0) +
    (if lastClose df > ind.ema_50 then (w.ema50 : ℤ) else 0)
  let unmetSum : ℤ :=
    (if ind.htf_trend then 0 else tenth w.htf_trend) +
    (if ind.trend then 0 else tenth w.trend) +
    (if ind.volume_spike then 0 else tenth w.volume) +
    (if ind.macd_hist_positive then 0 else tenth w.macd_hist) +
    (if ind.stoch_crossover then 0 else tenth w.stoch_crossover) +
    (if lastClose df > ind.ema_50 then 0 else tenth w.ema50)
  let adjustments : ℤ :=
    (if ind.divergence then max 5 (pct 8) else 0) +
    (if ind.suppressed then -(pct 7) else pct 7) -
    (if tight_range df then pct 6 else 0) -
    (if rsi_neutral ind then pct 5 else 0)
  let total : ℤ :=
    if core_true ind < 2 then 0 else metSum + unmetSum + adjustments
  pyRound2 ((max 0 (min total (maxN : ℤ)) : ℚ) / (maxN : ℚ) * 100)

/-- Outcome of the network request and DataFrame construction inside the
`try` block of `fetch_ohlcv` (utils.py lines 10-24, main.py lines
226-241): either the parsed candle rows, or any raised exception. -/
inductive FetchOutcome where
  | success (rows : List Candle)
  | failure (msg : String)
deriving DecidableEq, Repr

/-- `fetch_ohlcv` (utils.py lines 10-24, likewise main.py lines 226-241):
the parsed rows on success, and an empty DataFrame on any fetch or parse
failure — the `except` clause returns `pd.DataFrame()`, so the function
never raises. -/
def fetch_ohlcv (outcome : FetchOutcome) : DataFrame :=
  match outcome with
  | .success rows => rows
  | .failure _ => []

/-- `check_trend` (utils.py lines 59-64, likewise main.py lines 275-278)
applied to the fetched frame and the library-computed 200-EMA value:
`False` when the frame is empty or shorter than 200 rows, else whether the
last close is above the EMA. -/
def check_trend (df : DataFrame) (ema_200 : ℚ) : Bool :=
  if df.length < 200 then false
  else decide (lastClose df > ema_200)

/-- The confidence sum of logic.py lines 56-63. -/
def logicConfidence (vol trend suppressed div : Bool) (rsi k d : ℚ) : ℕ :=
  min ((if vol then 20 else 0) + (if trend then 20 else 0) +
    (if !suppressed then 15 else 0) + (if div then 15 else 0) +
    (if rsi < 30 then 15 else 0) + (if k < 20 ∧ d < 20 then 15 else 0)) 100

/-- `tsl_trigger` (logic.py line 49): the new high — the maximum of the
tracked high and the last close — scaled by `1 - tsl_percent`. -/
def tsl_trigger_of (prev_high last tsl_percent : ℚ) : ℚ :=
  max prev_high last * (1 - tsl_percent)

/-- `tsl_hit` (logic.py line 50): last close strictly below the trigger. -/
def tsl_hit_of (prev_high last tsl_percent : ℚ) : Bool :=
  decide (last < tsl_trigger_of prev_high last tsl_percent)

/-- The `highs_tracker[key]` update of one iteration (logic.py lines
46-54): `prev_high` defaults to the last close when the key is absent;
a confirmed up-move stores `last if last > prev_high else prev_high`,
otherwise the new high is stored unless the TSL was hit, in which case
the entry is left unchanged. -/
def highs_update (highs : Option ℚ) (last tsl_percent : ℚ)
    (vol trend suppressed : Bool) : Option ℚ :=
  let prev_high := highs.getD last
  let new_high := max prev_high last
  if vol && trend && !suppressed then
    some (if prev_high < last then last else prev_high)
  else if !(tsl_hit_of prev_high last tsl_percent) then some new_high
  else highs

/-- One alert flag update of logic.py lines 78-99 for a single kind:
when the condition holds, a message is sent unless the stored flag is
already `True`, and the flag is set to `True`; otherwise the flag is set
to `False`.  An absent key (`alert_flags.get(...) = None`) compares
unequal to `True` and hence sends.  Returns (sent, new flag). -/
def alertStep (flag : Option Bool) (cond : Bool) : Bool × Option Bool :=
  if cond then (decide (flag ≠ some true), some true) else (false, some false)

/-- The sent/not-sent outcomes of successive evaluations of one alert
kind for one symbol and interval, from the stored flag and the list of
condition values. -/
def alertRun : Option Bool → List Bool → List Bool
  | _, [] => []
  | flag, c :: cs => (alertStep flag c).1 :: alertRun (alertStep flag c).2 cs

/-- The indicator snapshot logic.py's `main_loop` obtains from the `ta`
library and the helpers of utils.py for one symbol and interval. -/
structure LogicIndicators where
  rsi : ℚ
  k : ℚ
  d : ℚ
  lower : ℚ
  upper : ℚ
  atr : ℚ
  vol : Bool
  trend : Bool
  suppressed : Bool
  div : Bool
deriving DecidableEq, Repr

/-- The per-key state of logic.py: `highs_tracker[key]` and the three
`alert_flags` entries. -/
structure LogicState where
  highs : Option ℚ
  entryFlag : Option Bool
  tpFlag : Option Bool
  tslFlag : Option Bool
deriving DecidableEq, Repr

/-- What one loop-body iteration of logic.py produces for one symbol and
interval. -/
structure LogicOutcome where
  state : LogicState
  sendEntry : Bool
  sendTp : Bool
  sendTsl : Bool
  confidence : ℕ
  entry : Bool
  tp : Bool
  tsl_hit : Bool
  tsl_level : ℚ
  highest : ℚ
deriving DecidableEq, Repr

/-- One iteration of the inner loop body of logic.py `main_loop` (lines
23-99) for one symbol/interval: `none` when the fetched frame is empty or
shorter than 20 rows (`continue`, line 25), else the computed signals, the
messages sent and the updated per-key state. -/
def logic_iteration (df : DataFrame) (ind : LogicIndicators)
    (tsl_percent : ℚ) (st : LogicState) : Option LogicOutcome :=
  if df.length < 20 then none
  else
    let last := lastClose df
    let prev_high := st.highs.getD last
    let new_high := max prev_high last
    let hit := tsl_hit_of prev_high last tsl_percent
    let highs' := highs_update st.highs last tsl_percent ind.vol ind.trend ind.suppressed
    let confidence := logicConfidence ind.vol ind.trend ind.suppressed ind.div ind.rsi ind.k ind.d
    let entry := decide (confidence ≥ 70)
    let tp := decide (last ≥ ind.upper) && decide (ind.k > 80) && decide (ind.d > 80)
    let eStep := alertStep st.entryFlag entry
    let tStep := alertStep st.tpFlag tp
    let sStep := alertStep st.tslFlag hit
    some { state := { highs := highs', entryFlag := eStep.2, tpFlag := tStep.2, tslFlag := sStep.2 }
           sendEntry := eStep.1, sendTp := tStep.1, sendTsl := sStep.1
           confidence := confidence, entry := entry, tp := tp
           tsl_hit := hit, tsl_level := tsl_trigger_of prev_high last tsl_percent
           highest := new_high }

/-- The `alert_tracker` dict of main.py line 204: last alert time per
`symbol_interval_kind` key, in minutes. -/
abbrev Tracker := String → Option ℚ

/-- `alert_cooldown_passed` (main.py lines 347-354): true — and the
current time recorded — exactly when the key was never recorded or the
recorded time is more than `cooldown_minutes` old.  Returns the result
and the updated tracker. -/
def alert_cooldown_passed (tracker : Tracker) (symbol interval kind : String)
    (cooldown_minutes now : ℚ) : Bool × Tracker :=
  let key := symbol ++ "_" ++ interval ++ "_" ++ kind
  match tracker key with
  | none => (true, fun k => if k = key then some now else tracker k)
  | some last =>
    if now - last > cooldown_minutes then
      (true, fun k => if k = key then some now else tracker k)
    else (false, tracker)

/-- The alert dispatch of `scan_symbols` (main.py lines 783-801) for one
kind: `if data[kind] and alert_cooldown_passed(...)`.  The short-circuit
means the tracker is consulted and updated only when the signal is true;
the message is sent exactly when the returned Boolean is true. -/
def scan_alert (signal : Bool) (tracker : Tracker) (symbol interval kind : String)
    (cooldown_minutes now : ℚ) : Bool × Tracker :=
  if signal then alert_cooldown_passed tracker symbol interval kind cooldown_minutes now
  else (false, tracker)

/-- The sent/not-sent outcomes of a sequence of evaluations of one alert
kind for one symbol and timeframe, each evaluation given by its signal
value and its wall-clock time (in minutes). -/
def scan_trace (symbol interval kind : String) (cooldown_minutes : ℚ) :
    Tracker → List (Bool × ℚ) → List Bool
  | _, [] => []
  | tracker, (sig, t) :: rest =>
    (scan_alert sig tracker symbol interval kind cooldown_minutes t).1 ::
      scan_trace symbol interval kind cooldown_minutes
        (scan_alert sig tracker symbol interval kind cooldown_minutes t).2 rest

/-- Python truthiness of an environment variable read by `os.getenv`:
set and non-empty. -/
def truthyStr (s : Option String) : Bool :=
  match s with
  | some v => !v.isEmpty
  | none => false

/-- Whether `needle` occurs in `hay` (`str.find(...) != -1`). -/
def startsWithChars : List Char → List Char → Bool
  | _, [] => true
  | [], _ :: _ => false
  | c :: cs, d :: ds => c == d && startsWithChars cs ds

/-- Whether the second character list occurs inside the first. -/
def containsChars : List Char → List Char → Bool
  | [], needle => needle.isEmpty
  | c :: rest, needle =>
    startsWithChars (c :: rest) needle || containsChars rest needle

/-- `hay.find(needle) != -1` on strings. -/
def strContainsSub (hay needle : String) : Bool :=
  containsChars hay.toList needle.toList

/-- The `/test-alert` handler of server.py (lines 12-30): status code and
whether a Telegram message was posted.  `key` is the `key` query
parameter, `bot_token`/`chat_id` the environment variables, `post_status`
the status the Telegram API answers when reached. -/
def test_alert (key bot_token chat_id : Option String) (post_status : ℕ) :
    ℕ × Bool :=
  if key ≠ some "asdf" then (401, false)
  else if !truthyStr bot_token || !truthyStr chat_id then (500, false)
  else (post_status, true)

/-- The `/test-alert` handler of main.py (lines 182-201): requests whose
lower-cased User-Agent contains "uptimerobot" are answered 200 without any
key check or message; otherwise as in server.py. -/
def test_alert_main (user_agent : String) (key bot_token chat_id : Option String)
    (post_status : ℕ) : ℕ × Bool :=
  if strContainsSub user_agent.toLower "uptimerobot" then (200, false)
  else if key ≠ some "asdf" then (401, false)
  else if !truthyStr bot_token || !truthyStr chat_id then (500, false)
  else (post_status, true)

theorem get_max_confidence_score_pos (i : Timeframe) : 0 < get_max_confidence_score i := by
  cases i <;> decide

theorem tp_max_score_pos (i : Timeframe) : 0 < tp_max_score i := by
  cases i <;> decide

theorem entry_threshold_pos (i : Timeframe) : 0 < (TIMEFRAME_CONFIG i).entry_threshold := by
  cases i <;> decide

theorem pyRound2_zero : pyRound2 0 = 0 := by with_unfolding_all decide

theorem analyzeCore_confidence (i : Timeframe) (t : ℚ) (df : DataFrame) (ind : Indicators)
    (l s : ℚ) : (analyzeCore i t df ind l s).confidence = normalized_conf i df ind := rfl

theorem analyzeCore_entry (i : Timeframe) (t : ℚ) (df : DataFrame) (ind : Indicators)
    (l s : ℚ) : (analyzeCore i t df ind l s).entry =
      decide (normalized_conf i df ind ≥ ((TIMEFRAME_CONFIG i).entry_threshold : ℚ)) := rfl

theorem analyzeCore_tp_conf (i : Timeframe) (t : ℚ) (df : DataFrame) (ind : Indicators)
    (l s : ℚ) : (analyzeCore i t df ind l s).tp_conf = tp_conf_value i df ind l s := rfl

theorem analyzeCore_tp (i : Timeframe) (t : ℚ) (df : DataFrame) (ind : Indicators)
    (l s : ℚ) : (analyzeCore i t df ind l s).tp =
      decide (tp_conf_value i df ind l s ≥ ((TIMEFRAME_CONFIG i).tp_threshold : ℚ)) := rfl

theorem analyze_some_elim {i : Timeframe} {tsl : Option ℚ} {df : DataFrame}
    {ind : Indicators} {r : AnalysisResult} (h : analyze i tsl df ind = some r) :
    220 ≤ df.length ∧ ∃ l s, ind.macd_line = some l ∧ ind.macd_signal = some s ∧
      r = analyzeCore i (tsl.getD (TIMEFRAME_CONFIG i).tsl) df ind l s := by
  unfold analyze at h
  split at h
  · exact absurd h (by simp)
  · rename_i hlen
    refine ⟨by omega, ?_⟩
    split at h
    · rename_i l s hml hms
      exact ⟨l, s, hml, hms, (Option.some_injective _ h).symm⟩
    · exact absurd h (by simp)

theorem major_credit_split (w : ℕ) (b : Bool) :
    major_credit w b = (if b then (w : ℤ) else 0) + (if b then 0 else ((w / 10 : ℕ) : ℤ)) := by
  cases b <;> simp [major_credit]

theorem normalized_conf_eq_amended (i : Timeframe) (df : DataFrame) (ind : Indicators) :
    normalized_conf i df ind = amendedC1Confidence i df ind := by
  have hsplit : entry_raw i df ind =
      ((if ind.htf_trend then ((TIMEFRAME_CONFIG i).confidence_weights.htf_trend : ℤ) else 0) +
       (if ind.trend then ((TIMEFRAME_CONFIG i).confidence_weights.trend : ℤ) else 0) +
       (if ind.volume_spike then ((TIMEFRAME_CONFIG i).confidence_weights.volume : ℤ) else 0) +
       (if ind.macd_hist_positive then ((TIMEFRAME_CONFIG i).confidence_weights.macd_hist : ℤ) else 0) +
       (if ind.stoch_crossover then ((TIMEFRAME_CONFIG i).confidence_weights.stoch_crossover : ℤ) else 0) +
       (if decide (lastClose df > ind.ema_50) then ((TIMEFRAME_CONFIG i).confidence_weights.ema50 : ℤ) else 0)) +
      ((if ind.htf_trend then 0 else (((TIMEFRAME_CONFIG i).confidence_weights.htf_trend / 10 : ℕ) : ℤ)) +
       (if ind.trend then 0 else (((TIMEFRAME_CONFIG i).confidence_weights.trend / 10 : ℕ) : ℤ)) +
       (if ind.volume_spike then 0 else (((TIMEFRAME_CONFIG i).confidence_weights.volume / 10 : ℕ) : ℤ)) +
       (if ind.macd_hist_positive then 0 else (((TIMEFRAME_CONFIG i).confidence_weights.macd_hist / 10 : ℕ) : ℤ)) +
       (if ind.stoch_crossover then 0 else (((TIMEFRAME_CONFIG i).confidence_weights.stoch_crossover / 10 : ℕ) : ℤ)) +
       (if decide (lastClose df > ind.ema_50) then 0 else (((TIMEFRAME_CONFIG i).confidence_weights.ema50 / 10 : ℕ) : ℤ))) +
      ((if ind.divergence then max 5 ((get_max_confidence_score i * 8 / 100 : ℕ) : ℤ) else 0) +
       (if ind.suppressed then -((get_max_confidence_score i * 7 / 100 : ℕ) : ℤ)
        else ((get_max_confidence_score i * 7 / 100 : ℕ) : ℤ)) -
       (if tight_range df then ((get_max_confidence_score i * 6 / 100 : ℕ) : ℤ) else 0) -
       (if rsi_neutral ind then ((get_max_confidence_score i * 5 / 100 : ℕ) : ℤ) else 0)) := by
    unfold entry_raw
    simp only [major_credit_split]
    ring
  simp only [normalized_conf, amendedC1Confidence, entry_clamped, entry_confidence_raw,
    hsplit, decide_eq_true_eq]
  push_cast
  ring_nf

/-- A concrete 220-row frame: 219 flat candles at 100 followed by one
candle at 200. -/
def sampleDf : DataFrame :=
  List.replicate 219 ⟨100, 100, 100, 100, 1⟩ ++ [⟨200, 200, 200, 200, 1⟩]

/-- A concrete indicator snapshot with exactly the two core signals
`htf_trend` and `trend` true. -/
def sampleIndA : Indicators :=
  { rsi := some 65, macd_line := some 1, macd_signal := some 2, macd_hist := some 0
    macd_hist_positive := false, stoch_k := 50, stoch_d := 50
    stoch_crossover := false, stoch_bear_crossover := false
    bb_upper := 1000, bb_lower := 0, ema_50 := 300
    trend := true, htf_trend := true, suppressed := true
    volume_spike := false, divergence := false, bearish_rsi_div := false }

/-- `sampleIndA` with `trend` false, leaving only one true core signal. -/
def sampleIndB : Indicators :=
  { sampleIndA with trend := false }

/-- The dict `analyze` returns on `sampleDf`/`sampleIndA`. -/
def sampleResultA : AnalysisResult :=
  analyzeCore .m15 (TIMEFRAME_CONFIG .m15).tsl sampleDf sampleIndA 1 2

/-- The dict `analyze` returns on `sampleDf`/`sampleIndB`. -/
def sampleResultB : AnalysisResult :=
  analyzeCore .m15 (TIMEFRAME_CONFIG .m15).tsl sampleDf sampleIndB 1 2

set_option maxRecDepth 4000 in
theorem analyze_sampleA : analyze .m15 none sampleDf sampleIndA = some sampleResultA := rfl

set_option maxRecDepth 4000 in
theorem analyze_sampleB : analyze .m15 none sampleDf sampleIndB = some sampleResultB := rfl

theorem normalized_conf_nonneg (i : Timeframe) (df : DataFrame) (ind : Indicators) :
    0 ≤ normalized_conf i df ind := by
  unfold normalized_conf
  apply pyRound2_nonneg
  have h0 : (0 : ℤ) ≤ entry_clamped i df ind := le_max_left _ _
  have h0' : (0 : ℚ) ≤ (entry_clamped i df ind : ℚ) := by exact_mod_cast h0
  have hM : (0 : ℚ) ≤ (get_max_confidence_score i : ℚ) := by positivity
  positivity

theorem normalized_conf_le_100 (i : Timeframe) (df : DataFrame) (ind : Indicators) :
    normalized_conf i df ind ≤ 100 := by
  unfold normalized_conf
  apply pyRound2_le_100
  have hM : (0 : ℚ) < (get_max_confidence_score i : ℚ) := by
    exact_mod_cast get_max_confidence_score_pos i
  have hc : entry_clamped i df ind ≤ ((get_max_confidence_score i : ℕ) : ℤ) :=
    max_le (by positivity) (min_le_right _ _)
  have hc' : (entry_clamped i df ind : ℚ) ≤ (get_max_confidence_score i : ℚ) := by
    exact_mod_cast hc
  have hdiv : (entry_clamped i df ind : ℚ) / (get_max_confidence_score i : ℚ) ≤ 1 :=
    (div_le_one hM).mpr hc'
  linarith

theorem tp_conf_value_nonneg (i : Timeframe) (df : DataFrame) (ind : Indicators)
    (l s : ℚ) : 0 ≤ tp_conf_value i df ind l s := by
  unfold tp_conf_value
  apply pyRound2_nonneg
  have h0 : (0 : ℚ) ≤ max 0 (min (tp_raw i df ind l s) (tp_max_score i : ℚ)) :=
    le_max_left _ _
  have hM : (0 : ℚ) ≤ (tp_max_score i : ℚ) := by positivity
  positivity

theorem tp_conf_value_le_100 (i : Timeframe) (df : DataFrame) (ind : Indicators)
    (l s : ℚ) : tp_conf_value i df ind l s ≤ 100 := by
  unfold tp_conf_value
  apply pyRound2_le_100
  have hM : (0 : ℚ) < (tp_max_score i : ℚ) := by exact_mod_cast tp_max_score_pos i
  have hc : max 0 (min (tp_raw i df ind l s) (tp_max_score i : ℚ)) ≤ (tp_max_score i : ℚ) :=
    max_le hM.le (min_le_right _ _)
  have hdiv : max 0 (min (tp_raw i df ind l s) (tp_max_score i : ℚ)) / (tp_max_score i : ℚ) ≤ 1 :=
    (div_le_one hM).mpr hc
  linarith

set_option maxRecDepth 10000 in
/-- Claim C1, counterexample: on a concrete input where only the
`htf_trend` and `trend` conditions are met, the confidence returned by
`analyze` (24.29) differs from the claim's formula of summing exactly the
met weights normalized by the maximum score (180/7 ≈ 25.71): the code
also grants 10% credit for the unmet conditions and subtracts a
suppression penalty. -/
theorem c1_counterexample :
    (analyze .m15 none sampleDf sampleIndA).map AnalysisResult.confidence ≠
      some (claimC1Confidence .m15 sampleDf sampleIndA) := by
  with_unfolding_all decide

/-- Claim C1, amended: the confidence returned by `analyze` equals the
sum of full weights for met major conditions plus one tenth (integer
part) of the weight for each unmet one, plus a divergence bonus of
`max 5 (8% of max)`, plus 7% of max when unsuppressed and minus 7% when
suppressed, minus 6% for a tight range and 5% for neutral RSI, all only
when at least 2 of 5 core signals hold (otherwise 0), clamped to
`[0, max]` and normalized by the maximum attainable score. -/
theorem c1_confidence_formula (i : Timeframe) (tsl : Option ℚ) (df : DataFrame)
    (ind : Indicators) (r : AnalysisResult) (h : analyze i tsl df ind = some r) :
    r.confidence = amendedC1Confidence i df ind := by
  obtain ⟨-, l, s, -, -, rfl⟩ := analyze_some_elim h
  rw [analyzeCore_confidence]
  exact normalized_conf_eq_amended i df ind

/-- Witness for the amended claim C1 at the concrete sample input. -/
theorem c1_confidence_formula_witness :
    sampleResultA.confidence = amendedC1Confidence .m15 sampleDf sampleIndA :=
  c1_confidence_formula .m15 none sampleDf sampleIndA sampleResultA analyze_sampleA

/-- Claim C2: every confidence value the scoring engine produces — the
normalized entry confidence and TP confidence of `analyze` and the
confidence of logic.py's loop — lies in `[0, 100]`. -/
theorem c2_confidence_in_range :
    (∀ (i : Timeframe) (tsl : Option ℚ) (df : DataFrame) (ind : Indicators)
        (r : AnalysisResult), analyze i tsl df ind = some r →
      0 ≤ r.confidence ∧ r.confidence ≤ 100 ∧ 0 ≤ r.tp_conf ∧ r.tp_conf ≤ 100) ∧
    (∀ (vol trend suppressed div : Bool) (rsi k d : ℚ),
      logicConfidence vol trend suppressed div rsi k d ≤ 100) := by
  constructor
  · intro i tsl df ind r h
    obtain ⟨-, l, s, -, -, rfl⟩ := analyze_some_elim h
    rw [analyzeCore_confidence, analyzeCore_tp_conf]
    exact ⟨normalized_conf_nonneg i df ind, normalized_conf_le_100 i df ind,
      tp_conf_value_nonneg i df ind l s, tp_conf_value_le_100 i df ind l s⟩
  · intro vol trend suppressed div rsi k d
    exact min_le_right _ _

/-- Witness for claim C2 at the concrete sample input. -/
theorem c2_confidence_in_range_witness :
    0 ≤ sampleResultA.confidence ∧ sampleResultA.confidence ≤ 100 ∧
      0 ≤ sampleResultA.tp_conf ∧ sampleResultA.tp_conf ≤ 100 :=
  c2_confidence_in_range.1 .m15 none sampleDf sampleIndA sampleResultA analyze_sampleA

/-- Claim C3: `analyze`'s entry signal is true exactly when the
normalized entry confidence reaches the timeframe's `entry_threshold`,
and its TP signal exactly when the TP confidence reaches the
`tp_threshold`. -/
theorem c3_threshold_gating (i : Timeframe) (tsl : Option ℚ) (df : DataFrame)
    (ind : Indicators) (r : AnalysisResult) (h : analyze i tsl df ind = some r) :
    (r.entry = true ↔ r.confidence ≥ ((TIMEFRAME_CONFIG i).entry_threshold : ℚ)) ∧
    (r.tp = true ↔ r.tp_conf ≥ ((TIMEFRAME_CONFIG i).tp_threshold : ℚ)) := by
  obtain ⟨-, l, s, -, -, rfl⟩ := analyze_some_elim h
  rw [analyzeCore_entry, analyzeCore_confidence, analyzeCore_tp, analyzeCore_tp_conf]
  constructor <;> exact decide_eq_true_iff

/-- Witness for claim C3 at the concrete sample input. -/
theorem c3_threshold_gating_witness :
    (sampleResultA.entry = true ↔
      sampleResultA.confidence ≥ ((TIMEFRAME_CONFIG .m15).entry_threshold : ℚ)) ∧
    (sampleResultA.tp = true ↔
      sampleResultA.tp_conf ≥ ((TIMEFRAME_CONFIG .m15).tp_threshold : ℚ)) :=
  c3_threshold_gating .m15 none sampleDf sampleIndA sampleResultA analyze_sampleA

/-- Claim C5: when fewer than 2 of the 5 core signals hold, `analyze`
returns confidence 0 and no entry signal. -/
theorem c5_core_signal_gate (i : Timeframe) (tsl : Option ℚ) (df : DataFrame)
    (ind : Indicators) (r : AnalysisResult) (h : analyze i tsl df ind = some r)
    (hcore : core_true ind < 2) : r.confidence = 0 ∧ r.entry = false := by
  obtain ⟨-, l, s, -, -, rfl⟩ := analyze_some_elim h
  have h0 : entry_confidence_raw i df ind = 0 := if_pos hcore
  have hcl : entry_clamped i df ind = 0 := by
    unfold entry_clamped
    rw [h0]
    simp
  have hn : normalized_conf i df ind = 0 := by
    unfold normalized_conf
    rw [hcl]
    norm_num [pyRound2_zero]
  refine ⟨by rw [analyzeCore_confidence, hn], ?_⟩
  rw [analyzeCore_entry, hn]
  have hth : (0 : ℚ) < ((TIMEFRAME_CONFIG i).entry_threshold : ℚ) := by
    exact_mod_cast entry_threshold_pos i
  simp only [ge_iff_le, decide_eq_false_iff_not]
  intro hcontra
  linarith

/-- Witness for claim C5 at the concrete sample input with one core
signal. -/
theorem c5_core_signal_gate_witness :
    sampleResultB.confidence = 0 ∧ sampleResultB.entry = false :=
  c5_core_signal_gate .m15 none sampleDf sampleIndB sampleResultB analyze_sampleB
    (by decide)

/-- Claim C7: with `0 < tsl_percent < 1` and a positive tracked high, the
TSL trigger of logic.py equals the tracked high (the maximum of the
stored high and the last close) scaled by `1 - tsl_percent`, hence lies
strictly below it, and `tsl_hit` is true exactly when the last close is
below that level. -/
theorem c7_tsl_below_high (prev_high last tsl_percent : ℚ)
    (hp0 : 0 < tsl_percent) (hp1 : tsl_percent < 1)
    (hpos : 0 < max prev_high last) :
    tsl_trigger_of prev_high last tsl_percent = max prev_high last * (1 - tsl_percent) ∧
    tsl_trigger_of prev_high last tsl_percent < max prev_high last ∧
    (tsl_hit_of prev_high last tsl_percent = true ↔
      last < tsl_trigger_of prev_high last tsl_percent) := by
  refine ⟨rfl, ?_, ?_⟩
  · unfold tsl_trigger_of
    nlinarith
  · unfold tsl_hit_of
    exact decide_eq_true_iff

/-- Witness for claim C7 at a concrete input. -/
theorem c7_tsl_below_high_witness :
    tsl_trigger_of 100 50 (1/10) = max 100 50 * (1 - 1/10) ∧
    tsl_trigger_of 100 50 (1/10) < max 100 50 ∧
    (tsl_hit_of 100 50 (1/10) = true ↔ 50 < tsl_trigger_of 100 50 (1/10)) :=
  c7_tsl_below_high 100 50 (1/10) (by norm_num) (by norm_num) (by norm_num)

/-- Claim C10: for a tracked key, one loop iteration of logic.py either
leaves `highs_tracker[key]` unchanged or replaces it with the maximum of
its previous value and the last close; in particular the stored value
never decreases. -/
theorem c10_highs_monotone (v last tsl_percent : ℚ) (vol trend suppressed : Bool) :
    (highs_update (some v) last tsl_percent vol trend suppressed = some v ∨
     highs_update (some v) last tsl_percent vol trend suppressed = some (max v last)) ∧
    v ≤ (highs_update (some v) last tsl_percent vol trend suppressed).getD v := by
  have key : highs_update (some v) last tsl_percent vol trend suppressed = some v ∨
      highs_update (some v) last tsl_percent vol trend suppressed = some (max v last) := by
    unfold highs_update
    simp only [Option.getD_some]
    split
    · by_cases hvl : v < last
      · right
        rw [if_pos hvl, max_eq_right hvl.le]
      · left
        rw [if_neg hvl]
    · split
      · right
        rfl
      · left
        rfl
  refine ⟨key, ?_⟩
  rcases key with h | h <;> rw [h] <;> simp [le_max_left]

theorem alertRun_no_repeat (flag : Option Bool) (conds : List Bool) (k : ℕ)
    (h : conds.getD k false = true) :
    (alertRun flag conds).getD (k+1) false = false := by
  induction conds generalizing flag k with
  | nil => simp [List.getD] at h
  | cons c cs ih =>
    cases k with
    | zero =>
      simp only [List.getD_cons_zero] at h
      subst h
      cases cs with
      | nil => simp [alertRun, List.getD]
      | cons c' cs' =>
        show (alertRun (alertStep flag true).2 (c' :: cs')).getD 0 false = false
        cases c' <;> simp [alertRun, alertStep]
    | succ k' =>
      simp only [List.getD_cons_succ] at h
      simpa [alertRun] using ih (alertStep flag c).2 k' h

/-- Claim C6: in logic.py's loop, alerts are edge-triggered: over any
stretch of consecutive evaluations on which a condition stays true, no
message is sent after the first evaluation of the stretch, so a second
alert of the same kind requires an intermediate evaluation where the
condition was false. -/
theorem c6_edge_triggered (flag : Option Bool) (conds : List Bool) (i j : ℕ)
    (hij : i < j)
    (hall : ∀ k, i ≤ k → k ≤ j → conds.getD k false = true) :
    ∀ k, i < k → k ≤ j → (alertRun flag conds).getD k false = false := by
  intro k hik hkj
  obtain ⟨k', rfl⟩ : ∃ k', k = k' + 1 := ⟨k - 1, by omega⟩
  exact alertRun_no_repeat flag conds k' (hall k' (by omega) (by omega))

/-- Witness for claim C6: with no stored flag and the condition true
twice in a row, the second evaluation sends nothing. -/
theorem c6_edge_triggered_witness :
    (alertRun none [true, true]).getD 1 false = false :=
  c6_edge_triggered none [true, true] 0 1 (by norm_num)
    (fun k h1 h2 => by interval_cases k <;> rfl) 1 (by norm_num) (by norm_num)

theorem acp_true_iff (tracker : Tracker) (s i k : String) (cd now : ℚ) :
    (alert_cooldown_passed tracker s i k cd now).1 = true ↔
      tracker (s ++ "_" ++ i ++ "_" ++ k) = none ∨
      ∃ last, tracker (s ++ "_" ++ i ++ "_" ++ k) = some last ∧ now - last > cd := by
  unfold alert_cooldown_passed
  cases h : tracker (s ++ "_" ++ i ++ "_" ++ k) with
  | none => simp [h]
  | some last =>
    simp only [h]
    split <;> rename_i hgap <;> simp [hgap]

theorem acp_true_records (tracker : Tracker) (s i k : String) (cd now : ℚ)
    (h : (alert_cooldown_passed tracker s i k cd now).1 = true) :
    (alert_cooldown_passed tracker s i k cd now).2 (s ++ "_" ++ i ++ "_" ++ k) = some now := by
  unfold alert_cooldown_passed at h ⊢
  cases htr : tracker (s ++ "_" ++ i ++ "_" ++ k) with
  | none => simp [htr]
  | some last =>
    simp only [htr] at h ⊢
    split at h
    · rename_i hgap
      simp [hgap]
    · simp at h

theorem scan_alert_sent_elim (signal : Bool) (tracker : Tracker) (s i k : String)
    (cd now : ℚ) (h : (scan_alert signal tracker s i k cd now).1 = true) :
    signal = true ∧ (alert_cooldown_passed tracker s i k cd now).1 = true := by
  unfold scan_alert at h
  split at h
  · exact ⟨by assumption, h⟩
  · simp at h

theorem scan_alert_tracker_key (signal : Bool) (tracker : Tracker) (s i k : String)
    (cd now : ℚ) :
    (scan_alert signal tracker s i k cd now).2 (s ++ "_" ++ i ++ "_" ++ k) =
      if (scan_alert signal tracker s i k cd now).1 = true then some now
      else tracker (s ++ "_" ++ i ++ "_" ++ k) := by
  unfold scan_alert alert_cooldown_passed
  split
  · cases htr : tracker (s ++ "_" ++ i ++ "_" ++ k) with
    | none => simp [htr]
    | some last =>
      simp only [htr]
      split <;> simp [htr]
  · simp

theorem chain_le_of_le {a b : ℚ} {l : List ℚ} (hab : a ≤ b)
    (h : List.Chain (fun x y => x ≤ y) b l) : List.Chain (fun x y => x ≤ y) a l := by
  cases l with
  | nil => exact List.Chain.nil
  | cons c l' =>
    rcases List.chain_cons.mp h with ⟨hbc, h'⟩
    exact List.chain_cons.mpr ⟨le_trans hab hbc, h'⟩

theorem scan_trace_gap (s i k : String) (cd : ℚ) (evals : List (Bool × ℚ))
    (tracker : Tracker) (t0 : ℚ)
    (hrec : tracker (s ++ "_" ++ i ++ "_" ++ k) = some t0)
    (hchain : List.Chain (fun x y => x ≤ y) t0 (evals.map Prod.snd)) :
    ∀ j, (scan_trace s i k cd tracker evals).getD j false = true →
      cd < (evals.map Prod.snd).getD j 0 - t0 := by
  induction evals generalizing tracker t0 with
  | nil => intro j hj; simp [scan_trace, List.getD] at hj
  | cons e rest ih =>
    obtain ⟨sig, t⟩ := e
    intro j hj
    rw [List.map_cons] at hchain
    rcases List.chain_cons.mp hchain with ⟨ht0t, hchain'⟩
    cases j with
    | zero =>
      simp only [scan_trace, List.getD_cons_zero] at hj
      obtain ⟨-, hacp⟩ := scan_alert_sent_elim _ _ _ _ _ _ _ hj
      rcases (acp_true_iff tracker s i k cd t).mp hacp with hnone | ⟨last, hlast, hgap⟩
      · rw [hrec] at hnone; exact absurd hnone (by simp)
      · rw [hrec] at hlast
        obtain rfl : t0 = last := by injection hlast
        simpa using hgap
    | succ j' =>
      simp only [scan_trace, List.getD_cons_succ] at hj
      simp only [List.map_cons, List.getD_cons_succ]
      by_cases hsent : (scan_alert sig tracker s i k cd t).1 = true
      · have hrec' : (scan_alert sig tracker s i k cd t).2 (s ++ "_" ++ i ++ "_" ++ k) =
            some t := by rw [scan_alert_tracker_key, if_pos hsent]
        have hgap := ih _ t hrec' hchain' j' hj
        linarith
      · have hrec' : (scan_alert sig tracker s i k cd t).2 (s ++ "_" ++ i ++ "_" ++ k) =
            some t0 := by rw [scan_alert_tracker_key, if_neg hsent, hrec]
        exact ih _ t0 hrec' (chain_le_of_le ht0t hchain') j' hj

theorem scan_trace_two_sends (s i k : String) (cd : ℚ) (evals : List (Bool × ℚ)) :
    ∀ (tracker : Tracker) (a b : ℕ), a < b →
      List.Chain' (fun x y => x ≤ y) (evals.map Prod.snd) →
      (scan_trace s i k cd tracker evals).getD a false = true →
      (scan_trace s i k cd tracker evals).getD b false = true →
      cd < (evals.map Prod.snd).getD b 0 - (evals.map Prod.snd).getD a 0 := by
  induction evals with
  | nil => intro tracker a b hab hch ha hb; simp [scan_trace, List.getD] at ha
  | cons e rest ih =>
    intro tracker a b hab hch ha hb
    obtain ⟨sig, t⟩ := e
    obtain ⟨b', rfl⟩ : ∃ b', b = b' + 1 := ⟨b - 1, by omega⟩
    have hch2 : List.Chain (fun x y => x ≤ y) t (rest.map Prod.snd) := by
      rw [List.map_cons] at hch
      exact hch
    cases a with
    | zero =>
      simp only [scan_trace, List.getD_cons_zero] at ha
      simp only [scan_trace, List.getD_cons_succ] at hb
      simp only [List.map_cons, List.getD_cons_succ, List.getD_cons_zero]
      have hrec' : (scan_alert sig tracker s i k cd t).2 (s ++ "_" ++ i ++ "_" ++ k) =
          some t := by rw [scan_alert_tracker_key, if_pos ha]
      exact scan_trace_gap s i k cd rest _ t hrec' hch2 b' hb
    | succ a' =>
      simp only [scan_trace, List.getD_cons_succ] at ha hb
      simp only [List.map_cons, List.getD_cons_succ]
      have hch' : List.Chain' (fun x y => x ≤ y) (rest.map Prod.snd) := by
        have := List.Chain'.tail (l := t :: rest.map Prod.snd) (by exact hch2)
        simpa using this
      exact ih _ a' b' (by omega) hch' ha hb

/-- Claim C4: `alert_cooldown_passed` returns true — and records the
current time — exactly when the key was never recorded or its recorded
time is more than the cooldown in the past; `scan_symbols` sends only
when the signal holds and `alert_cooldown_passed` returns true; and
consequently, along any sequence of evaluations with non-decreasing
wall-clock times, two sent alerts of the same symbol/timeframe/kind are
always more than the configured cooldown apart. -/
theorem c4_cooldown_spacing :
    (∀ (tracker : Tracker) (s i k : String) (cd now : ℚ),
      ((alert_cooldown_passed tracker s i k cd now).1 = true ↔
        tracker (s ++ "_" ++ i ++ "_" ++ k) = none ∨
        ∃ last, tracker (s ++ "_" ++ i ++ "_" ++ k) = some last ∧ now - last > cd) ∧
      ((alert_cooldown_passed tracker s i k cd now).1 = true →
        (alert_cooldown_passed tracker s i k cd now).2 (s ++ "_" ++ i ++ "_" ++ k) =
          some now)) ∧
    (∀ (signal : Bool) (tracker : Tracker) (s i k : String) (cd now : ℚ),
      (scan_alert signal tracker s i k cd now).1 = true →
        signal = true ∧ (alert_cooldown_passed tracker s i k cd now).1 = true) ∧
    (∀ (s i k : String) (cd : ℚ) (evals : List (Bool × ℚ)) (tracker : Tracker)
        (a b : ℕ), a < b →
      List.Chain' (fun x y => x ≤ y) (evals.map Prod.snd) →
      (scan_trace s i k cd tracker evals).getD a false = true →
      (scan_trace s i k cd tracker evals).getD b false = true →
      cd < (evals.map Prod.snd).getD b 0 - (evals.map Prod.snd).getD a 0) := by
  refine ⟨fun tracker s i k cd now => ⟨acp_true_iff tracker s i k cd now,
    acp_true_records tracker s i k cd now⟩,
    fun signal tracker s i k cd now => scan_alert_sent_elim signal tracker s i k cd now,
    fun s i k cd evals tracker a b hab hch ha hb =>
      scan_trace_two_sends s i k cd evals tracker a b hab hch ha hb⟩

/-- Witness for claim C4: a fresh tracker, two true signals 20 minutes
apart with a 15-minute cooldown; both alerts are sent and their gap
exceeds the cooldown. -/
theorem c4_cooldown_spacing_witness :
    (15 : ℚ) < (([(true, (0 : ℚ)), (true, 20)].map Prod.snd).getD 1 0 -
      ([(true, (0 : ℚ)), (true, 20)].map Prod.snd).getD 0 0) :=
  c4_cooldown_spacing.2.2 "SOLUSDT" "15m" "entry" 15 [(true, 0), (true, 20)]
    (fun _ => none) 0 1 (by norm_num)
    (by
      show List.Chain (fun x y => x ≤ y) 0 [20]
      exact List.chain_cons.mpr ⟨by norm_num, List.Chain.nil⟩)
    (by with_unfolding_all decide) (by with_unfolding_all decide)

/-- Claim C8: `fetch_ohlcv` yields an empty DataFrame on any fetch or
parse failure and a plain DataFrame otherwise (its `try/except` never
propagates an exception), and every caller guards short data: `analyze`
returns `None` below 220 rows, `check_trend` returns `False` below 200
rows, and logic.py's loop body skips the pair below 20 rows. -/
theorem c8_fetch_error_handling :
    (∀ msg, fetch_ohlcv (.failure msg) = ([] : DataFrame)) ∧
    (∀ outcome, fetch_ohlcv outcome = [] ∨
      ∃ rows, outcome = .success rows ∧ fetch_ohlcv outcome = rows) ∧
    (∀ (i : Timeframe) (tsl : Option ℚ) (df : DataFrame) (ind : Indicators),
      df.length < 220 → analyze i tsl df ind = none) ∧
    (∀ (df : DataFrame) (ema_200 : ℚ), df.length < 200 → check_trend df ema_200 = false) ∧
    (∀ (df : DataFrame) (ind : LogicIndicators) (tsl_percent : ℚ) (st : LogicState),
      df.length < 20 → logic_iteration df ind tsl_percent st = none) := by
  refine ⟨fun msg => rfl, ?_, ?_, ?_, ?_⟩
  · intro outcome
    cases outcome with
    | success rows => exact Or.inr ⟨rows, rfl, rfl⟩
    | failure msg => exact Or.inl rfl
  · intro i tsl df ind h
    simp [analyze, h]
  · intro df e h
    simp [check_trend, h]
  · intro df ind p st h
    simp [logic_iteration, h]

/-- Witness for claim C8 on concrete failure and short-data inputs. -/
theorem c8_fetch_error_handling_witness :
    fetch_ohlcv (.failure "timeout") = ([] : DataFrame) ∧
    analyze .m15 none [] sampleIndA = none ∧
    check_trend [] 0 = false ∧
    logic_iteration [] ⟨50, 50, 50, 0, 0, 0, false, false, false, false⟩ (21/100)
      ⟨none, none, none, none⟩ = none :=
  ⟨c8_fetch_error_handling.1 "timeout",
   c8_fetch_error_handling.2.2.1 .m15 none [] sampleIndA (by decide),
   c8_fetch_error_handling.2.2.2.1 [] 0 (by decide),
   c8_fetch_error_handling.2.2.2.2 [] ⟨50, 50, 50, 0, 0, 0, false, false, false, false⟩
     (21/100) ⟨none, none, none, none⟩ (by decide)⟩

/-- Claim C9, counterexample: a request to main.py's `/test-alert` whose
User-Agent is UptimeRobot's and whose key is wrong is answered 200, not
401 as the claim demands for every wrong-key request. -/
theorem c9_counterexample :
    (some "wrong" ≠ some "asdf") ∧
    (test_alert_main "UptimeRobot/2.0" (some "wrong") none none 200).1 ≠ 401 := by
  with_unfolding_all decide

/-- Claim C9, amended: server.py's `/test-alert` behaves as the claim
states (401 and no send on a wrong or missing key, 500 and no send on a
missing environment variable); main.py's variant does so only for
requests whose lower-cased User-Agent does not contain "uptimerobot",
while UptimeRobot pings are answered 200 with nothing sent. -/
theorem c9_test_alert_auth :
    (∀ (key bot chat : Option String) (st : ℕ), key ≠ some "asdf" →
      test_alert key bot chat st = (401, false)) ∧
    (∀ (bot chat : Option String) (st : ℕ), bot = none ∨ chat = none →
      test_alert (some "asdf") bot chat st = (500, false)) ∧
    (∀ (ua : String) (key bot chat : Option String) (st : ℕ),
      strContainsSub ua.toLower "uptimerobot" = false → key ≠ some "asdf" →
      test_alert_main ua key bot chat st = (401, false)) ∧
    (∀ (ua : String) (bot chat : Option String) (st : ℕ),
      strContainsSub ua.toLower "uptimerobot" = false → (bot = none ∨ chat = none) →
      test_alert_main ua (some "asdf") bot chat st = (500, false)) ∧
    (∀ (ua : String) (key bot chat : Option String) (st : ℕ),
      strContainsSub ua.toLower "uptimerobot" = true →
      test_alert_main ua key bot chat st = (200, false)) := by
  refine ⟨?_, ?_, ?_, ?_, ?_⟩
  · intro key bot chat st hk
    simp [test_alert, hk]
  · intro bot chat st h
    rcases h with rfl | rfl
    · simp [test_alert, truthyStr]
    · cases bot with
      | none => simp [test_alert, truthyStr]
      | some b => simp [test_alert, truthyStr]
  · intro ua key bot chat st hua hk
    simp [test_alert_main, hua, hk]
  · intro ua bot chat st hua h
    rcases h with rfl | rfl
    · simp [test_alert_main, hua, truthyStr]
    · cases bot with
      | none => simp [test_alert_main, hua, truthyStr]
      | some b => simp [test_alert_main, hua, truthyStr]
  · intro ua key bot chat st hua
    simp [test_alert_main, hua]

/-- Witness for the amended claim C9 on concrete requests. -/
theorem c9_test_alert_auth_witness :
    test_alert (some "zzz") none none 200 = (401, false) ∧
    test_alert (some "asdf") none (some "42") 200 = (500, false) ∧
    test_alert_main "Mozilla" (some "zzz") none none 200 = (401, false) ∧
    test_alert_main "Mozilla" (some "asdf") none (some "42") 200 = (500, false) ∧
    test_alert_main "UptimeRobot/2.0" (some "zzz") none none 200 = (200, false) :=
  ⟨c9_test_alert_auth.1 (some "zzz") none none 200 (by decide),
   c9_test_alert_auth.2.1 none (some "42") 200 (Or.inl rfl),
   c9_test_alert_auth.2.2.1 "Mozilla" (some "zzz") none none 200
     (by with_unfolding_all decide) (by decide),
   c9_test_alert_auth.2.2.2.1 "Mozilla" none (some "42") 200
     (by with_unfolding_all decide) (Or.inl rfl),
   c9_test_alert_auth.2.2.2.2 "UptimeRobot/2.0" (some "zzz") none none 200
     (by with_unfolding_all decide)⟩
